import Mathlib

/-!
Verification of the SalonPro occasion-based reminder engine
(`services/reminder_service.go` and the models it uses).

The Go source is embedded shallowly:

* `GoDate` models a calendar date carried by a `time.Time` value; Go's
  `AddDate(0, 0, n)` becomes `addDays` (day-by-day normalisation, which
  agrees with Go for valid dates and non-negative `n`).
* The raw SQL window query of `getUpcomingCustomers` becomes the boolean
  predicate `sqlWindowPred` applied as a filter over the customer table.
* Database access is a `Db` record: the stored rows plus oracles for the
  query errors the code handles (`custQueryError`, `salonQueryError`).
* The Twilio gateway is an oracle `Gateway` mapping (from, to, body) to
  either a provider error text or an optional message SID.
* Each run produces a trace of `Event`s: one `sendAttempt` per Twilio
  `CreateMessage` call and one `ledgerAppend` per `db.Create(&reminderLog)`
  call, in program order.
-/

namespace SalonPro

/-- Occasion type, the `eventType` strings "birthday" / "anniversary". -/
inductive EventType where
  | birthday
  | anniversary
deriving DecidableEq, Repr

/-- Calendar date (year, month 1..12, day 1..). Models the date part of a
Go `time.Time`. -/
structure GoDate where
  year : Nat
  month : Nat
  day : Nat
deriving DecidableEq, Repr

/-- Gregorian leap year, as in Go's `time` package. -/
def isLeap (y : Nat) : Bool :=
  (y % 4 == 0 && y % 100 != 0) || (y % 400 == 0)

/-- Number of days of a month, as in Go's `time` package. -/
def daysInMonth (y m : Nat) : Nat :=
  if m == 2 then (if isLeap y then 29 else 28)
  else if m == 4 || m == 6 || m == 9 || m == 11 then 30
  else 31

/-- The day after a given date. -/
def nextDay (d : GoDate) : GoDate :=
  if d.day < daysInMonth d.year d.month then ⟨d.year, d.month, d.day + 1⟩
  else if d.month < 12 then ⟨d.year, d.month + 1, 1⟩
  else ⟨d.year + 1, 1, 1⟩

/-- Go's `t.AddDate(0, 0, n)` for a valid date `d` and `n ≥ 0`. -/
def addDays (d : GoDate) : Nat → GoDate
  | 0 => d
  | n + 1 => nextDay (addDays d n)

/-- `models.Customer` (`models/remainder.go` sibling file): the fields the
reminder engine reads. `birthday` and `anniversary` are nullable
(`*time.Time`). -/
structure Customer where
  id : Nat
  salonId : Nat
  name : String
  phone : String
  email : String
  birthday : Option GoDate
  anniversary : Option GoDate
  isActive : Bool
deriving DecidableEq, Repr

/-- `models.User` in its salon-tenant form (`models/service.go`): identity,
active flag and the four notification-preference flags. -/
structure Salon where
  id : Nat
  email : String
  name : String
  phone : String
  salonName : String
  isActive : Bool
  birthdayReminders : Bool
  anniversaryReminders : Bool
  whatsAppNotifications : Bool
  smsNotifications : Bool
deriving DecidableEq, Repr

/-- `models.ReminderTemplate`. -/
structure ReminderTemplate where
  id : Nat
  salonId : Nat
  type : EventType
  message : String
  isActive : Bool
deriving DecidableEq, Repr

/-- `models.ReminderLog`: the ledger row built in `sendReminders`
(`reminder_service.go` lines 164-174). The struct has no field for the
provider message SID. -/
structure ReminderLog where
  salonId : Nat
  customerId : Nat
  templateId : Nat
  type : EventType
  message : String
  status : String
  errorMessage : String
  channel : String
  sentAt : GoDate
deriving DecidableEq, Repr

/-- One observable step of a reminder run: a Twilio `CreateMessage` call
(`sendAttempt`, tagged with the salon and occasion of the loop that issued
it) or a `db.Create(&reminderLog)` call (`ledgerAppend`). -/
inductive Event where
  | sendAttempt (salonId customerId : Nat) (etype : EventType)
      (fromAddr toAddr body : String)
  | ledgerAppend (entry : ReminderLog)
deriving DecidableEq, Repr

/-- The Twilio client: from-address, to-address and body determine either a
provider error text (`Except.error`) or an optional message SID
(`Except.ok`; `resp.Sid` is a nullable pointer). -/
def Gateway : Type := String → String → String → Except String (Option String)

/-- Configured sender identities (`TWILIO_WHATSAPP_NUMBER`,
`TWILIO_PHONE_NUMBER`). -/
structure GatewayConfig where
  whatsAppFrom : String
  smsFrom : String
deriving DecidableEq, Repr

/-- The relational store as the reminder engine sees it, plus oracles for
the query failures the code handles. -/
structure Db where
  salons : List Salon
  customers : List Customer
  templates : List ReminderTemplate
  salonQueryError : Option String
  custQueryError : Nat → EventType → Option String

/-- The occasion column selected by `eventType`
(`reminder_service.go` lines 88-96). -/
def occasionDate : EventType → Customer → Option GoDate
  | .birthday, c => c.birthday
  | .anniversary, c => c.anniversary

/-- The date condition of the raw SQL in `getUpcomingCustomers`
(lines 99-108): with `startDate = now.AddDate(0,0,7)`, it requires
`EXTRACT(MONTH FROM field) = startDate.Month()` and
`EXTRACT(DAY FROM field) BETWEEN now.Day() AND startDate.Day()`. -/
def sqlWindowPred (now : GoDate) (m d : Nat) : Bool :=
  let startDate := addDays now 7
  m == startDate.month && now.day ≤ d && d ≤ startDate.day

/-- `getUpcomingCustomers` (lines 83-110): on a database error the raw
query fails; otherwise it keeps the tenant's active customers whose
non-null occasion date satisfies the SQL window condition. -/
def getUpcomingCustomers (db : Db) (salonID : Nat) (eventType : EventType)
    (now : GoDate) : Except String (List Customer) :=
  match db.custQueryError salonID eventType with
  | some e => .error e
  | none =>
    .ok (db.customers.filter fun c =>
      c.salonId == salonID && c.isActive &&
        (match occasionDate eventType c with
         | none => false
         | some d => sqlWindowPred now d.month d.day))

/-- GORM `First` on `salon_id = ? AND type = ? AND is_active = true`
(lines 114-116): the first matching template row, if any. -/
def getActiveTemplate (tdb : List ReminderTemplate) (salonID : Nat)
    (eventType : EventType) : Option ReminderTemplate :=
  tdb.find? fun t => t.salonId == salonID && t.type == eventType && t.isActive

/-- `matchAt pat s` succeeds with the remainder of `s` when the non-empty
pattern `pat` is a prefix of `s`. -/
def matchAt (pat s : List Char) : Option (List Char) :=
  match pat with
  | [] => none
  | _ :: _ => if pat.isPrefixOf s then some (s.drop pat.length) else none

/-- Fuel-indexed scan of Go's `strings.Replace(s, old, new, -1)` for a
non-empty `old`: leftmost non-overlapping occurrences are replaced. The
fuel is instantiated with the length of `s`, which bounds the recursion. -/
def replaceAux (pat rep : List Char) : Nat → List Char → List Char
  | _, [] => []
  | 0, s => s
  | fuel + 1, c :: rest =>
    match matchAt pat (c :: rest) with
    | some rem => rep ++ replaceAux pat rep fuel rem
    | none => c :: replaceAux pat rep fuel rest

/-- Go's `strings.ReplaceAll(s, pat, rep)` as the engine uses it
(the pattern `"[CustomerName]"` is never empty). -/
def replaceAll (s pat rep : String) : String :=
  ⟨replaceAux pat.toList rep.toList s.toList.length s.toList⟩

/-- Whether `pat` occurs as a contiguous subsequence of `s`. -/
def containsTok (pat : List Char) : List Char → Bool
  | [] => false
  | c :: rest => pat.isPrefixOf (c :: rest) || containsTok pat rest

/-- Whether a template message contains the customer-name placeholder. -/
def hasNameToken (msg : String) : Bool :=
  containsTok "[CustomerName]".toList msg.toList

/-- Message rendering (line 123):
`strings.ReplaceAll(template.Message, "[CustomerName]", customer.Name)`. -/
def render (t : ReminderTemplate) (c : Customer) : String :=
  replaceAll t.message "[CustomerName]" c.name

/-- Go's `strings.HasPrefix(phone, "+")`: the first character is `+`. -/
def startsWithPlus (phone : String) : Bool :=
  match phone.toList with
  | [] => false
  | c :: _ => c == '+'

/-- Channel selection (lines 126-135): a leading `+` selects WhatsApp with
the address prefixed by `whatsapp:`; otherwise plain SMS with the address
unchanged. Returns (channel, destination address). -/
def selectChannel (phone : String) : String × String :=
  if startsWithPlus phone then ("whatsapp", "whatsapp:" ++ phone)
  else ("sms", phone)

/-- Sender identity per channel (lines 142-147). -/
def fromAddress (cfg : GatewayConfig) (channel : String) : String :=
  if channel == "whatsapp" then "whatsapp:" ++ cfg.whatsAppFrom
  else cfg.smsFrom

/-- One iteration of the customer loop of `sendReminders` (lines 121-178):
render, select channel, one Twilio call, one ledger insert. -/
def sendOne (cfg : GatewayConfig) (gw : Gateway) (now : GoDate)
    (salonID : Nat) (t : ReminderTemplate) (eventType : EventType)
    (c : Customer) : List Event :=
  let message := render t c
  let channel := (selectChannel c.phone).1
  let toAddr := (selectChannel c.phone).2
  let fromAddr := fromAddress cfg channel
  let result := gw fromAddr toAddr message
  let status := match result with | .error _ => "failed" | .ok _ => "sent"
  let errorMsg := match result with | .error e => e | .ok _ => ""
  [Event.sendAttempt salonID c.id eventType fromAddr toAddr message,
   Event.ledgerAppend
     { salonId := salonID, customerId := c.id, templateId := t.id,
       type := eventType, message := message, status := status,
       errorMessage := errorMsg, channel := channel, sentAt := now }]

/-- The customer loop of `sendReminders`, in order. -/
def sendAll (cfg : GatewayConfig) (gw : Gateway) (now : GoDate)
    (salonID : Nat) (t : ReminderTemplate) (eventType : EventType) :
    List Customer → List Event
  | [] => []
  | c :: rest =>
    sendOne cfg gw now salonID t eventType c ++
      sendAll cfg gw now salonID t eventType rest

/-- `sendReminders` (lines 112-180): fetch the active template; a missing
template returns without any send or ledger call; otherwise process every
customer. -/
def sendReminders (cfg : GatewayConfig) (gw : Gateway) (now : GoDate)
    (tdb : List ReminderTemplate) (salonID : Nat)
    (customers : List Customer) (eventType : EventType) : List Event :=
  match getActiveTemplate tdb salonID eventType with
  | none => []
  | some t => sendAll cfg gw now salonID t eventType customers

/-- One occasion type inside `ProcessSalonReminders` (lines 66-80): a
failing customer query is logged and skips `sendReminders` for that
occasion only. -/
def processOccasion (db : Db) (cfg : GatewayConfig) (gw : Gateway)
    (now : GoDate) (salonID : Nat) (eventType : EventType) : List Event :=
  match getUpcomingCustomers db salonID eventType now with
  | .error _ => []
  | .ok cs => sendReminders cfg gw now db.templates salonID cs eventType

/-- `ProcessSalonReminders` (lines 65-81): birthdays first, then
anniversaries. -/
def ProcessSalonReminders (db : Db) (cfg : GatewayConfig) (gw : Gateway)
    (now : GoDate) (salonID : Nat) : List Event :=
  processOccasion db cfg gw now salonID .birthday ++
    processOccasion db cfg gw now salonID .anniversary

/-- The salon loop of `SendDailyReminders` (lines 58-60). -/
def loopSalons (db : Db) (cfg : GatewayConfig) (gw : Gateway)
    (now : GoDate) : List Salon → List Event
  | [] => []
  | s :: rest =>
    ProcessSalonReminders db cfg gw now s.id ++
      loopSalons db cfg gw now rest

/-- `SendDailyReminders` (lines 48-63): fetch active salons (a failing
fetch aborts the whole run), then process each in turn. -/
def SendDailyReminders (db : Db) (cfg : GatewayConfig) (gw : Gateway)
    (now : GoDate) : List Event :=
  match db.salonQueryError with
  | some _ => []
  | none => loopSalons db cfg gw now (db.salons.filter fun s => s.isActive)

/-- Cron specs registered by `StartScheduler` (lines 38-46): `cron.New()`
is created and started, but `AddFunc` is never called, so no entry is
registered. -/
def StartSchedulerCronJobs : List String := []

/-- The immediate work done by `StartScheduler`: one direct call to
`SendDailyReminders` before starting the (empty) cron. -/
def StartScheduler (db : Db) (cfg : GatewayConfig) (gw : Gateway)
    (now : GoDate) : List Event :=
  SendDailyReminders db cfg gw now

/-- The commented-in `/test-reminder` route handler (routes variant): the
on-demand administrative trigger, which calls `SendDailyReminders`. -/
def TestReminderTrigger (db : Db) (cfg : GatewayConfig) (gw : Gateway)
    (now : GoDate) : List Event :=
  SendDailyReminders db cfg gw now

/-! ### Concrete fixtures used by counterexamples and witnesses -/

/-- A customer with an international (`+`-prefixed) phone and a birthday
on January 2. -/
def alice : Customer :=
  { id := 2, salonId := 1, name := "Alice", phone := "+15551234567",
    email := "", birthday := some ⟨2000, 1, 2⟩, anniversary := none,
    isActive := true }

/-- A customer with a local-format phone and a birthday on March 12. -/
def bob : Customer :=
  { id := 3, salonId := 1, name := "Bob", phone := "5551234567",
    email := "", birthday := some ⟨1990, 3, 12⟩, anniversary := none,
    isActive := true }

/-- An active salon tenant. -/
def salon1 : Salon :=
  { id := 1, email := "a@b.c", name := "Sam", phone := "1", salonName := "S1",
    isActive := true, birthdayReminders := true, anniversaryReminders := true,
    whatsAppNotifications := false, smsNotifications := false }

/-- An active birthday template for `salon1`. -/
def bdayTemplate : ReminderTemplate :=
  { id := 5, salonId := 1, type := .birthday,
    message := "Happy Birthday, [CustomerName]!", isActive := true }

/-- A database with one salon, one customer and one birthday template. -/
def exDb : Db :=
  { salons := [salon1], customers := [alice], templates := [bdayTemplate],
    salonQueryError := none, custQueryError := fun _ _ => none }

/-- A gateway configuration fixture. -/
def cfgEx : GatewayConfig := { whatsAppFrom := "+10000000000", smsFrom := "+10000000001" }

/-- A gateway that always succeeds without returning a SID. -/
def gwOk : Gateway := fun _ _ _ => .ok none

/-- A reference date fixture. -/
def d0 : GoDate := ⟨2026, 3, 10⟩

/-! ### Claim theorems -/

/-- Modelled from the spec: the intended window membership of §4.2 — the
occasion's month/day (year ignored) equals the month/day of one of the
dates `asOf, asOf + 1, …, asOf + windowDays` (both ends inclusive, month
and year boundaries crossed correctly). -/
def inWindowSpec (asOf : GoDate) (windowDays : Nat) (m d : Nat) : Bool :=
  (List.range (windowDays + 1)).any fun i =>
    (addDays asOf i).month == m && (addDays asOf i).day == d

/-- C1: refuted on the code. The claim requires the Occasion Finder to
return exactly the active customers whose occasion month/day lies in the
inclusive window `[asOf, asOf + windowDays]`, including windows that cross
a month or year boundary. The embedded query compares the occasion month
with the month of `asOf + 7` and requires the day to lie `BETWEEN
asOf.day AND (asOf + 7).day`, so for `asOf` = 2025-12-28 a customer whose
birthday falls on January 2 — inside the spec window — is not returned:
the query result is empty. -/
theorem c1_window_query_misses_boundary_crossing :
    inWindowSpec ⟨2025, 12, 28⟩ 7 1 2 = true ∧
    alice.isActive = true ∧ alice.birthday = some ⟨2000, 1, 2⟩ ∧
    getUpcomingCustomers exDb 1 .birthday ⟨2025, 12, 28⟩ = .ok [] :=
  ⟨rfl, rfl, rfl, rfl⟩

/-- C9: refuted on the code. `StartScheduler` creates a cron runner and
starts it, but never registers any entry (`AddFunc` is not called), so the
pipeline does not execute daily; the only pipeline execution is the single
immediate call to `SendDailyReminders`. Both `StartScheduler`'s immediate
call and the on-demand `/test-reminder` trigger do funnel through
`SendDailyReminders`. -/
theorem c9_scheduler_registers_no_daily_job :
    StartSchedulerCronJobs = [] ∧
    ∀ (db : Db) (cfg : GatewayConfig) (gw : Gateway) (now : GoDate),
      StartScheduler db cfg gw now = SendDailyReminders db cfg gw now ∧
      TestReminderTrigger db cfg gw now = SendDailyReminders db cfg gw now :=
  ⟨rfl, fun _ _ _ _ => ⟨rfl, rfl⟩⟩

/-- C4: channel selection is a deterministic, side-effect-free function of
the stored contact address: a leading `+` yields the WhatsApp channel with
the `whatsapp:`-prefixed address, anything else yields the SMS channel
with the address unmodified; and `sendOne` uses exactly this selection for
the destination of the gateway call and the channel recorded in the
ledger entry. -/
theorem c4_channel_selection (cfg : GatewayConfig) (gw : Gateway)
    (now : GoDate) (salonID : Nat) (t : ReminderTemplate)
    (eventType : EventType) (c : Customer) :
    (startsWithPlus c.phone = true →
      selectChannel c.phone = ("whatsapp", "whatsapp:" ++ c.phone)) ∧
    (startsWithPlus c.phone = false →
      selectChannel c.phone = ("sms", c.phone)) ∧
    ∃ entry : ReminderLog,
      sendOne cfg gw now salonID t eventType c =
        [Event.sendAttempt salonID c.id eventType
           (fromAddress cfg (selectChannel c.phone).1)
           (selectChannel c.phone).2 (render t c),
         Event.ledgerAppend entry] ∧
      entry.channel = (selectChannel c.phone).1 := by
  refine ⟨fun h => by simp [selectChannel, h], fun h => by simp [selectChannel, h], ?_⟩
  cases hr : gw (fromAddress cfg (selectChannel c.phone).1)
      (selectChannel c.phone).2 (render t c) with
  | error e =>
    exact ⟨{ salonId := salonID, customerId := c.id, templateId := t.id,
             type := eventType, message := render t c, status := "failed",
             errorMessage := e, channel := (selectChannel c.phone).1,
             sentAt := now },
           by simp [sendOne, hr], rfl⟩
  | ok s =>
    exact ⟨{ salonId := salonID, customerId := c.id, templateId := t.id,
             type := eventType, message := render t c, status := "sent",
             errorMessage := "", channel := (selectChannel c.phone).1,
             sentAt := now },
           by simp [sendOne, hr], rfl⟩

/-- Witness for C4 at the two addresses named by the spec. -/
theorem c4_channel_selection_witness :
    selectChannel alice.phone = ("whatsapp", "whatsapp:" ++ alice.phone) ∧
    selectChannel bob.phone = ("sms", bob.phone) :=
  ⟨(c4_channel_selection cfgEx gwOk d0 1 bdayTemplate .birthday alice).1 (by decide),
   (c4_channel_selection cfgEx gwOk d0 1 bdayTemplate .birthday bob).2.1 (by decide)⟩

/-- A template whose message does not contain the placeholder. -/
def plainTemplate : ReminderTemplate :=
  { id := 6, salonId := 1, type := .anniversary,
    message := "Hello!", isActive := true }

/-- A customer sharing Alice's name, with every optional field absent. -/
def alice2 : Customer :=
  { id := 9, salonId := 1, name := "Alice", phone := "", email := "",
    birthday := none, anniversary := none, isActive := false }

/-- A gateway that always fails with the provider text "boom". -/
def gwFail : Gateway := fun _ _ _ => .error "boom"

/-- If the pattern occurs nowhere in `s`, the scan never matches at the
head of `s`. -/
theorem matchAt_eq_none (pat s : List Char) (h : containsTok pat s = false) :
    matchAt pat s = none := by
  cases s with
  | nil =>
    cases pat with
    | nil => rfl
    | cons p ps => simp [matchAt, List.isPrefixOf]
  | cons c rest =>
    cases pat with
    | nil => rfl
    | cons p ps =>
      unfold containsTok at h
      rcases Bool.or_eq_false_iff.mp h with ⟨ha, _⟩
      simp [matchAt, ha]

/-- A string without any occurrence of the pattern is left unchanged by
the replacement scan. -/
theorem replaceAux_of_no_token (pat rep : List Char) :
    ∀ (fuel : Nat) (s : List Char), containsTok pat s = false →
      replaceAux pat rep fuel s = s := by
  intro fuel
  induction fuel with
  | zero => intro s _; cases s <;> rfl
  | succ n ih =>
    intro s hs
    cases s with
    | nil => rfl
    | cons c rest =>
      have hm := matchAt_eq_none pat (c :: rest) hs
      have hrest : containsTok pat rest = false := by
        unfold containsTok at hs
        exact (Bool.or_eq_false_iff.mp hs).2
      simp [replaceAux, hm, ih rest hrest]

/-- Rebuilding a string from its character list is the identity. -/
theorem string_mk_toList (s : String) : (⟨s.toList⟩ : String) = s := rfl

/-- C5: rendering is a pure, deterministic function of the (template,
customer) pair that uses only the customer's name — it is total even when
every optional field is absent, two customers with the same name render
identically, a message without the placeholder is returned unchanged, and
the placeholder is replaced by the name. -/
theorem c5_render_pure_function (t : ReminderTemplate) (c c' : Customer) :
    (c.name = c'.name → render t c = render t c') ∧
    (hasNameToken t.message = false → render t c = t.message) ∧
    render bdayTemplate alice = "Happy Birthday, Alice!" := by
  refine ⟨fun h => by unfold render; rw [h], fun h => ?_, by decide⟩
  unfold render replaceAll
  rw [replaceAux_of_no_token _ _ _ _ h]
  exact string_mk_toList t.message

/-- Witness for C5: a template without the placeholder renders unchanged,
identically for Alice and for a namesake with all optional fields absent. -/
theorem c5_render_pure_function_witness :
    render plainTemplate alice = render plainTemplate alice2 ∧
    render plainTemplate alice = plainTemplate.message :=
  ⟨(c5_render_pure_function plainTemplate alice alice2).1 rfl,
   (c5_render_pure_function plainTemplate alice alice2).2.1 (by decide)⟩

/-- The customer loop distributes over list concatenation. -/
theorem sendAll_append (cfg : GatewayConfig) (gw : Gateway) (now : GoDate)
    (salonID : Nat) (t : ReminderTemplate) (eventType : EventType)
    (a b : List Customer) :
    sendAll cfg gw now salonID t eventType (a ++ b) =
      sendAll cfg gw now salonID t eventType a ++
        sendAll cfg gw now salonID t eventType b := by
  induction a with
  | nil => rfl
  | cons x xs ih => simp [sendAll, ih]

/-- C3: a gateway error for one customer yields a ledger entry with status
`failed` whose error detail is the provider's (non-empty) error text, and
the customers after it in the same tenant's list are still processed. -/
theorem c3_gateway_failure_logged_and_continues
    (cfg : GatewayConfig) (gw : Gateway) (now : GoDate)
    (tdb : List ReminderTemplate) (salonID : Nat) (eventType : EventType)
    (t : ReminderTemplate) (c : Customer) (e : String)
    (l₁ l₂ : List Customer)
    (ht : getActiveTemplate tdb salonID eventType = some t)
    (hgw : gw (fromAddress cfg (selectChannel c.phone).1)
        (selectChannel c.phone).2 (render t c) = .error e)
    (he : e ≠ "") :
    sendReminders cfg gw now tdb salonID (l₁ ++ c :: l₂) eventType =
      sendAll cfg gw now salonID t eventType l₁ ++
        sendOne cfg gw now salonID t eventType c ++
        sendAll cfg gw now salonID t eventType l₂ ∧
    ∃ entry : ReminderLog,
      sendOne cfg gw now salonID t eventType c =
        [Event.sendAttempt salonID c.id eventType
           (fromAddress cfg (selectChannel c.phone).1)
           (selectChannel c.phone).2 (render t c),
         Event.ledgerAppend entry] ∧
      entry.status = "failed" ∧ entry.errorMessage = e ∧
      entry.errorMessage ≠ "" ∧ entry.customerId = c.id := by
  constructor
  · unfold sendReminders
    rw [ht]
    show sendAll cfg gw now salonID t eventType (l₁ ++ c :: l₂) = _
    rw [sendAll_append]
    simp [sendAll]
  · exact ⟨{ salonId := salonID, customerId := c.id, templateId := t.id,
             type := eventType, message := render t c, status := "failed",
             errorMessage := e, channel := (selectChannel c.phone).1,
             sentAt := now },
           by simp [sendOne, hgw], rfl, rfl, he, rfl⟩

/-- Witness for C3: with a failing gateway, the tenant's list
`[alice, bob]` is still processed past the failing first customer. -/
theorem c3_gateway_failure_witness :
    sendReminders cfgEx gwFail d0 [bdayTemplate] 1 ([] ++ alice :: [bob])
        .birthday =
      sendAll cfgEx gwFail d0 1 bdayTemplate .birthday [] ++
        sendOne cfgEx gwFail d0 1 bdayTemplate .birthday alice ++
        sendAll cfgEx gwFail d0 1 bdayTemplate .birthday [bob] :=
  (c3_gateway_failure_logged_and_continues cfgEx gwFail d0 [bdayTemplate] 1
    .birthday bdayTemplate alice "boom" [] [bob] rfl rfl (by decide)).1

/-- The other occasion type of a tenant. -/
def otherType : EventType → EventType
  | .birthday => .anniversary
  | .anniversary => .birthday

/-- A missing active template produces no events for that occasion. -/
theorem processOccasion_of_no_template (db : Db) (cfg : GatewayConfig)
    (gw : Gateway) (now : GoDate) (salonID : Nat) (eventType : EventType)
    (h : getActiveTemplate db.templates salonID eventType = none) :
    processOccasion db cfg gw now salonID eventType = [] := by
  unfold processOccasion
  cases hq : getUpcomingCustomers db salonID eventType now with
  | error e => rfl
  | ok cs => simp [sendReminders, h]

/-- Processing one occasion of one tenant reads the database only through
the tenant's customer rows, the tenant's query-error oracle and the
tenant's active template for that occasion. -/
theorem processOccasion_congr (db db' : Db) (cfg : GatewayConfig)
    (gw : Gateway) (now : GoDate) (s : Nat) (e : EventType)
    (hc : db'.customers = db.customers)
    (hq : db'.custQueryError s e = db.custQueryError s e)
    (ht : getActiveTemplate db'.templates s e =
      getActiveTemplate db.templates s e) :
    processOccasion db' cfg gw now s e = processOccasion db cfg gw now s e := by
  simp only [processOccasion, getUpcomingCustomers, sendReminders, hc, hq, ht]

/-- Per-tenant processing reads the database only through that tenant's
rows and oracles. -/
theorem ProcessSalonReminders_congr (db db' : Db) (cfg : GatewayConfig)
    (gw : Gateway) (now : GoDate) (s : Nat)
    (hc : db'.customers = db.customers)
    (hq : ∀ e, db'.custQueryError s e = db.custQueryError s e)
    (ht : ∀ e, getActiveTemplate db'.templates s e =
      getActiveTemplate db.templates s e) :
    ProcessSalonReminders db' cfg gw now s =
      ProcessSalonReminders db cfg gw now s := by
  unfold ProcessSalonReminders
  rw [processOccasion_congr db db' cfg gw now s .birthday hc (hq _) (ht _),
    processOccasion_congr db db' cfg gw now s .anniversary hc (hq _) (ht _)]

/-- C6: a (tenant, occasion type) pair without an active template is a
skip, not a failure — that occasion produces no gateway call and no ledger
entry, the tenant's run reduces to its other occasion type alone, and any
other tenant's processing is exactly what it would have been had the
template existed. -/
theorem c6_missing_template_is_skip (db : Db) (cfg : GatewayConfig)
    (gw : Gateway) (now : GoDate) (salonID : Nat) (eventType : EventType)
    (h : getActiveTemplate db.templates salonID eventType = none) :
    processOccasion db cfg gw now salonID eventType = [] ∧
    (∀ cs, sendReminders cfg gw now db.templates salonID cs eventType = []) ∧
    ProcessSalonReminders db cfg gw now salonID =
      processOccasion db cfg gw now salonID (otherType eventType) ∧
    ∀ db' : Db, db'.customers = db.customers →
      db'.custQueryError = db.custQueryError →
      (∀ s e, s ≠ salonID →
        getActiveTemplate db'.templates s e =
          getActiveTemplate db.templates s e) →
      ∀ s, s ≠ salonID →
        ProcessSalonReminders db' cfg gw now s =
          ProcessSalonReminders db cfg gw now s := by
  refine ⟨processOccasion_of_no_template db cfg gw now salonID eventType h,
    fun cs => by simp [sendReminders, h], ?_, ?_⟩
  · unfold ProcessSalonReminders
    cases eventType with
    | birthday =>
      rw [processOccasion_of_no_template db cfg gw now salonID .birthday h]
      rfl
    | anniversary =>
      rw [processOccasion_of_no_template db cfg gw now salonID .anniversary h]
      simp [otherType]
  · intro db' hc hq ht s hs
    exact ProcessSalonReminders_congr db db' cfg gw now s hc
      (fun e => by rw [hq]) (fun e => ht s e hs)

/-- Witness for C6: `exDb` has no anniversary template; the anniversary
occasion of tenant 1 produces no events and the tenant's run is its
birthday part alone. -/
theorem c6_missing_template_is_skip_witness :
    processOccasion exDb cfgEx gwOk d0 1 .anniversary = [] ∧
    ProcessSalonReminders exDb cfgEx gwOk d0 1 =
      processOccasion exDb cfgEx gwOk d0 1 (otherType .anniversary) :=
  ⟨(c6_missing_template_is_skip exDb cfgEx gwOk d0 1 .anniversary rfl).1,
   (c6_missing_template_is_skip exDb cfgEx gwOk d0 1 .anniversary rfl).2.2.1⟩

/-- The tenant an event belongs to. -/
def evSalon : Event → Nat
  | .sendAttempt s _ _ _ _ _ => s
  | .ledgerAppend l => l.salonId

/-- The part of a trace belonging to tenants other than `sid`. -/
def filterOthers (evts : List Event) (sid : Nat) : List Event :=
  evts.filter fun e => evSalon e != sid

/-- Every event of one loop iteration carries the loop's salon id. -/
theorem evSalon_mem_sendOne (cfg : GatewayConfig) (gw : Gateway)
    (now : GoDate) (sid : Nat) (t : ReminderTemplate) (et : EventType)
    (c : Customer) :
    ∀ ev ∈ sendOne cfg gw now sid t et c, evSalon ev = sid := by
  intro ev hev
  simp [sendOne] at hev
  rcases hev with h | h <;> subst h <;> rfl

/-- Every event of the customer loop carries the loop's salon id. -/
theorem evSalon_mem_sendAll (cfg : GatewayConfig) (gw : Gateway)
    (now : GoDate) (sid : Nat) (t : ReminderTemplate) (et : EventType) :
    ∀ (cs : List Customer), ∀ ev ∈ sendAll cfg gw now sid t et cs,
      evSalon ev = sid := by
  intro cs
  induction cs with
  | nil => intro ev hev; cases hev
  | cons c rest ih =>
    intro ev hev
    rcases List.mem_append.mp hev with h | h
    · exact evSalon_mem_sendOne cfg gw now sid t et c ev h
    · exact ih ev h

/-- Every event of one tenant's occasion run carries that tenant's id. -/
theorem evSalon_mem_processOccasion (db : Db) (cfg : GatewayConfig)
    (gw : Gateway) (now : GoDate) (sid : Nat) (et : EventType) :
    ∀ ev ∈ processOccasion db cfg gw now sid et, evSalon ev = sid := by
  intro ev hev
  unfold processOccasion at hev
  cases hq : getUpcomingCustomers db sid et now with
  | error e => rw [hq] at hev; cases hev
  | ok cs =>
    rw [hq] at hev
    unfold sendReminders at hev
    cases ht : getActiveTemplate db.templates sid et with
    | none => rw [ht] at hev; cases hev
    | some t =>
      rw [ht] at hev
      exact evSalon_mem_sendAll cfg gw now sid t et cs ev hev

/-- Every event of one tenant's run carries that tenant's id. -/
theorem evSalon_mem_ProcessSalonReminders (db : Db) (cfg : GatewayConfig)
    (gw : Gateway) (now : GoDate) (sid : Nat) :
    ∀ ev ∈ ProcessSalonReminders db cfg gw now sid, evSalon ev = sid := by
  intro ev hev
  rcases List.mem_append.mp hev with h | h
  · exact evSalon_mem_processOccasion db cfg gw now sid .birthday ev h
  · exact evSalon_mem_processOccasion db cfg gw now sid .anniversary ev h

/-- A tenant's own events vanish when filtering for the other tenants. -/
theorem filterOthers_ProcessSalonReminders_self (db : Db)
    (cfg : GatewayConfig) (gw : Gateway) (now : GoDate) (sid : Nat) :
    filterOthers (ProcessSalonReminders db cfg gw now sid) sid = [] := by
  apply List.filter_eq_nil_iff.mpr
  intro ev hev
  simp [evSalon_mem_ProcessSalonReminders db cfg gw now sid ev hev]

/-- C7: a failure while processing one tenant — here, arbitrary changes to
that tenant's customer-query error oracle, e.g. a database error listing
its occasions — neither aborts nor alters the processing of the remaining
tenants: each other tenant's run is unchanged, and so is the part of the
daily cycle's trace belonging to the other tenants. -/
theorem c7_tenant_isolation (db db' : Db) (cfg : GatewayConfig)
    (gw : Gateway) (now : GoDate) (salonID : Nat)
    (hs : db'.salons = db.salons)
    (hc : db'.customers = db.customers)
    (ht : db'.templates = db.templates)
    (hsq : db'.salonQueryError = db.salonQueryError)
    (hq : ∀ s e, s ≠ salonID → db'.custQueryError s e = db.custQueryError s e) :
    (∀ s, s ≠ salonID →
      ProcessSalonReminders db' cfg gw now s =
        ProcessSalonReminders db cfg gw now s) ∧
    filterOthers (SendDailyReminders db' cfg gw now) salonID =
      filterOthers (SendDailyReminders db cfg gw now) salonID := by
  have hother : ∀ s, s ≠ salonID →
      ProcessSalonReminders db' cfg gw now s =
        ProcessSalonReminders db cfg gw now s := by
    intro s hsne
    exact ProcessSalonReminders_congr db db' cfg gw now s hc
      (fun e => hq s e hsne) (fun e => by rw [ht])
  refine ⟨hother, ?_⟩
  have hloop : ∀ l : List Salon,
      filterOthers (loopSalons db' cfg gw now l) salonID =
        filterOthers (loopSalons db cfg gw now l) salonID := by
    intro l
    induction l with
    | nil => rfl
    | cons s rest ih =>
      show filterOthers (ProcessSalonReminders db' cfg gw now s.id ++
          loopSalons db' cfg gw now rest) salonID =
        filterOthers (ProcessSalonReminders db cfg gw now s.id ++
          loopSalons db cfg gw now rest) salonID
      unfold filterOthers
      rw [List.filter_append, List.filter_append]
      by_cases hid : s.id = salonID
      · subst hid
        have h1 := filterOthers_ProcessSalonReminders_self db' cfg gw now s.id
        have h2 := filterOthers_ProcessSalonReminders_self db cfg gw now s.id
        unfold filterOthers at h1 h2
        rw [h1, h2]
        exact ih
      · rw [hother s.id hid]
        unfold filterOthers at ih
        rw [ih]
  unfold SendDailyReminders
  rw [hsq]
  cases db.salonQueryError with
  | some e => rfl
  | none =>
    rw [hs]
    exact hloop (db.salons.filter fun s => s.isActive)

/-- A copy of `exDb` where every query for tenant 1 fails. -/
def exDbFail : Db :=
  { exDb with custQueryError := fun s _ => if s == 1 then some "db down" else none }

/-- Witness for C7: making tenant 1's occasion queries fail leaves the
other tenants' part of the cycle trace unchanged. -/
theorem c7_tenant_isolation_witness :
    filterOthers (SendDailyReminders exDbFail cfgEx gwOk d0) 1 =
      filterOthers (SendDailyReminders exDb cfgEx gwOk d0) 1 :=
  (c7_tenant_isolation exDb exDbFail cfgEx gwOk d0 1 rfl rfl rfl rfl
    (fun s e hs => by
      show (if s == 1 then some "db down" else none) = none
      simp [hs])).2

/-- Two salon tables that agree row by row on identity and active flag,
while the four notification-preference flags (and the other profile
fields) may differ arbitrarily. -/
def salonsAgreeExceptFlags (l₁ l₂ : List Salon) : Prop :=
  List.Forall₂ (fun a b => a.id = b.id ∧ a.isActive = b.isActive) l₁ l₂

/-- C10: the daily cycle never reads the tenant's notification-preference
fields: two runs over databases whose salon rows differ only outside the
id and active flag — in particular only in `BirthdayReminders`,
`AnniversaryReminders`, `WhatsAppNotifications` or `SMSNotifications` —
produce identical traces (identical sends and identical ledger entries),
and every tenant has both occasion types processed unconditionally. -/
theorem c10_preference_flags_noninterference (db₁ db₂ : Db)
    (cfg : GatewayConfig) (gw : Gateway) (now : GoDate)
    (hs : salonsAgreeExceptFlags db₁.salons db₂.salons)
    (hc : db₁.customers = db₂.customers)
    (ht : db₁.templates = db₂.templates)
    (hsq : db₁.salonQueryError = db₂.salonQueryError)
    (hq : db₁.custQueryError = db₂.custQueryError) :
    SendDailyReminders db₁ cfg gw now = SendDailyReminders db₂ cfg gw now ∧
    ∀ sid, ProcessSalonReminders db₁ cfg gw now sid =
      processOccasion db₁ cfg gw now sid .birthday ++
        processOccasion db₁ cfg gw now sid .anniversary := by
  have hP : ∀ sid, ProcessSalonReminders db₁ cfg gw now sid =
      ProcessSalonReminders db₂ cfg gw now sid := by
    intro sid
    exact ProcessSalonReminders_congr db₂ db₁ cfg gw now sid hc
      (fun e => by rw [hq]) (fun e => by rw [ht])
  refine ⟨?_, fun _ => rfl⟩
  unfold SendDailyReminders
  rw [hsq]
  cases db₂.salonQueryError with
  | some e => rfl
  | none =>
    have hloop : ∀ (l₁ l₂ : List Salon),
        List.Forall₂ (fun a b => a.id = b.id ∧ a.isActive = b.isActive) l₁ l₂ →
        loopSalons db₁ cfg gw now (l₁.filter fun s => s.isActive) =
          loopSalons db₂ cfg gw now (l₂.filter fun s => s.isActive) := by
      intro l₁ l₂ hrel
      induction hrel with
      | nil => rfl
      | @cons a b la lb hab htail ih =>
        rcases hab with ⟨hid, hact⟩
        rw [List.filter_cons, List.filter_cons, hact]
        cases hb : b.isActive
        · exact ih
        · show loopSalons db₁ cfg gw now
              (a :: List.filter (fun s => s.isActive) la) =
            loopSalons db₂ cfg gw now
              (b :: List.filter (fun s => s.isActive) lb)
          simp only [loopSalons]
          rw [hid, hP, ih]
    exact hloop db₁.salons db₂.salons hs

/-- `salon1` with every notification-preference flag flipped. -/
def salon1f : Salon :=
  { salon1 with
    birthdayReminders := false
    anniversaryReminders := false
    whatsAppNotifications := true
    smsNotifications := true }

/-- `exDb` with the flipped-flags salon row. -/
def exDbFlags : Db := { exDb with salons := [salon1f] }

/-- Witness for C10: flipping all four preference flags of tenant 1 leaves
the daily cycle's trace unchanged. -/
theorem c10_preference_flags_noninterference_witness :
    SendDailyReminders exDb cfgEx gwOk d0 =
      SendDailyReminders exDbFlags cfgEx gwOk d0 :=
  (c10_preference_flags_noninterference exDb exDbFlags cfgEx gwOk d0
    (List.Forall₂.cons ⟨rfl, rfl⟩ List.Forall₂.nil) rfl rfl rfl rfl).1

/-- The ledger rows appended during a trace, in order. -/
def ledgerEntries (evts : List Event) : List ReminderLog :=
  evts.filterMap fun e =>
    match e with
    | .ledgerAppend l => some l
    | _ => none

/-- A gateway that succeeds and returns a provider message SID. -/
def gwSid : Gateway := fun _ _ _ => .ok (some "SM123")

/-- C8 counterexample: the provider-assigned message identifier is not
recorded in the ledger entry. A send through a gateway that returns SID
"SM123" produces a ledger entry identical to the one produced when no SID
is returned — `ReminderLog` has no field for it (the SID reaches only the
console log) — while both entries do carry status `sent`. -/
theorem c8_sid_not_recorded_counterexample :
    gwSid "x" "y" "z" = .ok (some "SM123") ∧
    ledgerEntries (sendOne cfgEx gwSid d0 1 bdayTemplate .birthday alice) =
      ledgerEntries (sendOne cfgEx gwOk d0 1 bdayTemplate .birthday alice) ∧
    (ledgerEntries (sendOne cfgEx gwSid d0 1 bdayTemplate .birthday alice)).map
      ReminderLog.status = ["sent"] :=
  ⟨rfl, rfl, rfl⟩

/-- C8 (amended): every dispatch attempt appends exactly one ledger entry
recording tenant id, customer id, template id, occasion type, rendered
message, channel, status `sent` or `failed`, the provider error text when
failed (empty otherwise) and the timestamp; the provider message
identifier is not part of the entry, and a successful send with no
identifier is still recorded with status `sent`, distinct from a
failure. -/
theorem c8_ledger_entry_fields (cfg : GatewayConfig) (gw : Gateway)
    (now : GoDate) (salonID : Nat) (t : ReminderTemplate) (et : EventType)
    (c : Customer) :
    ∃ entry : ReminderLog,
      sendOne cfg gw now salonID t et c =
        [Event.sendAttempt salonID c.id et
           (fromAddress cfg (selectChannel c.phone).1)
           (selectChannel c.phone).2 (render t c),
         Event.ledgerAppend entry] ∧
      entry.salonId = salonID ∧ entry.customerId = c.id ∧
      entry.templateId = t.id ∧ entry.type = et ∧
      entry.message = render t c ∧
      entry.channel = (selectChannel c.phone).1 ∧ entry.sentAt = now ∧
      (∀ e, gw (fromAddress cfg (selectChannel c.phone).1)
          (selectChannel c.phone).2 (render t c) = .error e →
        entry.status = "failed" ∧ entry.errorMessage = e) ∧
      ∀ r, gw (fromAddress cfg (selectChannel c.phone).1)
          (selectChannel c.phone).2 (render t c) = .ok r →
        entry.status = "sent" ∧ entry.errorMessage = "" := by
  cases hr : gw (fromAddress cfg (selectChannel c.phone).1)
      (selectChannel c.phone).2 (render t c) with
  | error e =>
    refine ⟨{ salonId := salonID, customerId := c.id, templateId := t.id,
              type := et, message := render t c, status := "failed",
              errorMessage := e, channel := (selectChannel c.phone).1,
              sentAt := now },
            by simp [sendOne, hr], rfl, rfl, rfl, rfl, rfl, rfl, rfl,
            ?_, ?_⟩
    · intro e' h
      cases h
      exact ⟨rfl, rfl⟩
    · intro r h
      cases h
  | ok s =>
    refine ⟨{ salonId := salonID, customerId := c.id, templateId := t.id,
              type := et, message := render t c, status := "sent",
              errorMessage := "", channel := (selectChannel c.phone).1,
              sentAt := now },
            by simp [sendOne, hr], rfl, rfl, rfl, rfl, rfl, rfl, rfl,
            ?_, ?_⟩
    · intro e' h
      cases h
    · intro r h
      exact ⟨rfl, rfl⟩

/-- Witness for C8: a successful send that returns no identifier is still
recorded with status `sent`. -/
theorem c8_ledger_entry_fields_witness :
    (ledgerEntries (sendOne cfgEx gwOk d0 1 bdayTemplate .birthday
      alice)).map ReminderLog.status = ["sent"] := by
  obtain ⟨entry, he, -, -, -, -, -, -, -, -, hok⟩ :=
    c8_ledger_entry_fields cfgEx gwOk d0 1 bdayTemplate .birthday alice
  rw [he]
  simp only [ledgerEntries, List.filterMap, List.map]
  exact congrArg (fun s => [s]) ((hok none rfl).1)

/-- The occasion type an event belongs to. -/
def evType : Event → EventType
  | .sendAttempt _ _ e _ _ _ => e
  | .ledgerAppend l => l.type

/-- Whether an event is the gateway send attempt for a given
(tenant, customer, occasion type) combination. -/
def isSendFor (sid cid : Nat) (et : EventType) : Event → Bool
  | .sendAttempt s c e _ _ _ => s == sid && c == cid && e == et
  | .ledgerAppend _ => false

/-- Whether an event is the ledger append for a given
(tenant, customer, occasion type) combination. -/
def isLedgerFor (sid cid : Nat) (et : EventType) : Event → Bool
  | .ledgerAppend l => l.salonId == sid && l.customerId == cid && l.type == et
  | .sendAttempt _ _ _ _ _ _ => false

/-- Number of gateway send attempts for a combination in a trace. -/
def countSends (evts : List Event) (sid cid : Nat) (et : EventType) : Nat :=
  evts.countP (isSendFor sid cid et)

/-- Number of ledger appends for a combination in a trace. -/
def countLedgers (evts : List Event) (sid cid : Nat) (et : EventType) : Nat :=
  evts.countP (isLedgerFor sid cid et)

/-- One loop iteration makes matching send and ledger counts: its send
attempt and its ledger entry carry the same tenant, customer and
occasion. -/
theorem counts_pair_sendOne (cfg : GatewayConfig) (gw : Gateway)
    (now : GoDate) (sid : Nat) (t : ReminderTemplate) (et : EventType)
    (c : Customer) (s k : Nat) (e : EventType) :
    countSends (sendOne cfg gw now sid t et c) s k e =
      countLedgers (sendOne cfg gw now sid t et c) s k e := by
  simp [sendOne, countSends, countLedgers, List.countP_cons, isSendFor,
    isLedgerFor]

/-- Send/ledger pairing for the customer loop. -/
theorem counts_pair_sendAll (cfg : GatewayConfig) (gw : Gateway)
    (now : GoDate) (sid : Nat) (t : ReminderTemplate) (et : EventType)
    (s k : Nat) (e : EventType) :
    ∀ cs : List Customer,
      countSends (sendAll cfg gw now sid t et cs) s k e =
        countLedgers (sendAll cfg gw now sid t et cs) s k e := by
  intro cs
  induction cs with
  | nil => rfl
  | cons x rest ih =>
    show countSends (sendOne cfg gw now sid t et x ++
        sendAll cfg gw now sid t et rest) s k e =
      countLedgers (sendOne cfg gw now sid t et x ++
        sendAll cfg gw now sid t et rest) s k e
    unfold countSends countLedgers at ih ⊢
    rw [List.countP_append, List.countP_append]
    have h1 := counts_pair_sendOne cfg gw now sid t et x s k e
    unfold countSends countLedgers at h1
    omega

/-- Send/ledger pairing for one tenant's one occasion. -/
theorem counts_pair_processOccasion (db : Db) (cfg : GatewayConfig)
    (gw : Gateway) (now : GoDate) (sid : Nat) (et : EventType)
    (s k : Nat) (e : EventType) :
    countSends (processOccasion db cfg gw now sid et) s k e =
      countLedgers (processOccasion db cfg gw now sid et) s k e := by
  unfold processOccasion
  cases getUpcomingCustomers db sid et now with
  | error msg => rfl
  | ok cs =>
    unfold sendReminders
    cases getActiveTemplate db.templates sid et with
    | none => rfl
    | some t => exact counts_pair_sendAll cfg gw now sid t et s k e cs

/-- Send/ledger pairing for one tenant's run. -/
theorem counts_pair_ProcessSalonReminders (db : Db) (cfg : GatewayConfig)
    (gw : Gateway) (now : GoDate) (sid : Nat) (s k : Nat) (e : EventType) :
    countSends (ProcessSalonReminders db cfg gw now sid) s k e =
      countLedgers (ProcessSalonReminders db cfg gw now sid) s k e := by
  unfold ProcessSalonReminders countSends countLedgers
  rw [List.countP_append, List.countP_append]
  have h1 := counts_pair_processOccasion db cfg gw now sid .birthday s k e
  have h2 := counts_pair_processOccasion db cfg gw now sid .anniversary s k e
  unfold countSends countLedgers at h1 h2
  omega

/-- Send/ledger pairing for the whole daily cycle. -/
theorem counts_pair_SendDailyReminders (db : Db) (cfg : GatewayConfig)
    (gw : Gateway) (now : GoDate) (s k : Nat) (e : EventType) :
    countSends (SendDailyReminders db cfg gw now) s k e =
      countLedgers (SendDailyReminders db cfg gw now) s k e := by
  unfold SendDailyReminders
  cases db.salonQueryError with
  | some msg => rfl
  | none =>
    show countSends
        (loopSalons db cfg gw now (db.salons.filter fun s => s.isActive))
        s k e =
      countLedgers
        (loopSalons db cfg gw now (db.salons.filter fun s => s.isActive))
        s k e
    generalize (db.salons.filter fun s => s.isActive) = sl
    induction sl with
    | nil => rfl
    | cons x rest ih =>
      show countSends (ProcessSalonReminders db cfg gw now x.id ++
          loopSalons db cfg gw now rest) s k e =
        countLedgers (ProcessSalonReminders db cfg gw now x.id ++
          loopSalons db cfg gw now rest) s k e
      unfold countSends countLedgers at ih ⊢
      rw [List.countP_append, List.countP_append]
      have h1 := counts_pair_ProcessSalonReminders db cfg gw now x.id s k e
      unfold countSends countLedgers at h1
      omega

/-- Counting send attempts distributes over trace concatenation. -/
theorem countSends_append (a b : List Event) (sid k : Nat) (et : EventType) :
    countSends (a ++ b) sid k et =
      countSends a sid k et + countSends b sid k et := by
  simp [countSends, List.countP_append]

/-- A trace whose events all belong to another tenant has no send attempt
for this one. -/
theorem countSends_wrong_salon (evts : List Event) (s' : Nat)
    (h : ∀ ev ∈ evts, evSalon ev = s') (sid k : Nat) (et : EventType)
    (hne : sid ≠ s') : countSends evts sid k et = 0 := by
  apply List.countP_eq_zero.mpr
  intro ev hev hp
  have hsal := h ev hev
  cases ev with
  | sendAttempt a b e f toA body =>
    simp only [evSalon] at hsal
    simp only [isSendFor, Bool.and_eq_true, beq_iff_eq] at hp
    exact hne (hp.1.1 ▸ hsal)
  | ledgerAppend l => simp [isSendFor] at hp

/-- A trace whose events all belong to another occasion type has no send
attempt for this one. -/
theorem countSends_wrong_type (evts : List Event) (e' : EventType)
    (h : ∀ ev ∈ evts, evType ev = e') (sid k : Nat) (et : EventType)
    (hne : et ≠ e') : countSends evts sid k et = 0 := by
  apply List.countP_eq_zero.mpr
  intro ev hev hp
  have htype := h ev hev
  cases ev with
  | sendAttempt a b e f toA body =>
    simp only [evType] at htype
    simp only [isSendFor, Bool.and_eq_true, beq_iff_eq] at hp
    exact hne (hp.2 ▸ htype)
  | ledgerAppend l => simp [isSendFor] at hp

/-- Every event of one loop iteration carries the loop's occasion type. -/
theorem evType_mem_sendOne (cfg : GatewayConfig) (gw : Gateway)
    (now : GoDate) (sid : Nat) (t : ReminderTemplate) (et : EventType)
    (c : Customer) :
    ∀ ev ∈ sendOne cfg gw now sid t et c, evType ev = et := by
  intro ev hev
  simp [sendOne] at hev
  rcases hev with h | h <;> subst h <;> rfl

/-- Every event of the customer loop carries the loop's occasion type. -/
theorem evType_mem_sendAll (cfg : GatewayConfig) (gw : Gateway)
    (now : GoDate) (sid : Nat) (t : ReminderTemplate) (et : EventType) :
    ∀ (cs : List Customer), ∀ ev ∈ sendAll cfg gw now sid t et cs,
      evType ev = et := by
  intro cs
  induction cs with
  | nil => intro ev hev; cases hev
  | cons c rest ih =>
    intro ev hev
    rcases List.mem_append.mp hev with h | h
    · exact evType_mem_sendOne cfg gw now sid t et c ev h
    · exact ih ev h

/-- Every event of a tenant's occasion run carries that occasion type. -/
theorem evType_mem_processOccasion (db : Db) (cfg : GatewayConfig)
    (gw : Gateway) (now : GoDate) (sid : Nat) (et : EventType) :
    ∀ ev ∈ processOccasion db cfg gw now sid et, evType ev = et := by
  intro ev hev
  unfold processOccasion at hev
  cases hq : getUpcomingCustomers db sid et now with
  | error e => rw [hq] at hev; cases hev
  | ok cs =>
    rw [hq] at hev
    unfold sendReminders at hev
    cases ht : getActiveTemplate db.templates sid et with
    | none => rw [ht] at hev; cases hev
    | some t =>
      rw [ht] at hev
      exact evType_mem_sendAll cfg gw now sid t et cs ev hev

/-- The customer loop issues one send attempt for its own customer per
iteration and none for anyone else. -/
theorem countSends_sendOne_eq (cfg : GatewayConfig) (gw : Gateway)
    (now : GoDate) (sid : Nat) (t : ReminderTemplate) (et : EventType)
    (x : Customer) (k : Nat) :
    countSends (sendOne cfg gw now sid t et x) sid k et =
      if x.id = k then 1 else 0 := by
  by_cases h : x.id = k <;>
    simp [sendOne, countSends, List.countP_cons, isSendFor, h]

/-- A customer loop over customers with other ids makes no send attempt
for id `k`. -/
theorem countSends_sendAll_zero (cfg : GatewayConfig) (gw : Gateway)
    (now : GoDate) (sid : Nat) (t : ReminderTemplate) (et : EventType)
    (k : Nat) :
    ∀ cs : List Customer, (∀ y ∈ cs, y.id ≠ k) →
      countSends (sendAll cfg gw now sid t et cs) sid k et = 0 := by
  intro cs
  induction cs with
  | nil => intro _; rfl
  | cons x rest ih =>
    intro h
    show countSends (sendOne cfg gw now sid t et x ++
        sendAll cfg gw now sid t et rest) sid k et = 0
    rw [countSends_append, countSends_sendOne_eq,
      if_neg (h x (List.mem_cons_self _ _)), ih fun y hy => h y (List.mem_cons_of_mem x hy)]

/-- Over a duplicate-free customer list containing a customer with id `k`,
the loop makes exactly one send attempt for `k`. -/
theorem countSends_sendAll_one (cfg : GatewayConfig) (gw : Gateway)
    (now : GoDate) (sid : Nat) (t : ReminderTemplate) (et : EventType)
    (k : Nat) :
    ∀ cs : List Customer, (cs.map Customer.id).Nodup →
      ∀ c ∈ cs, c.id = k →
      countSends (sendAll cfg gw now sid t et cs) sid k et = 1 := by
  intro cs
  induction cs with
  | nil => intro _ c hc; cases hc
  | cons x rest ih =>
    intro hnd c hc hck
    have hx : x.id ∉ rest.map Customer.id ∧ (rest.map Customer.id).Nodup := by
      simpa [List.nodup_cons] using hnd
    show countSends (sendOne cfg gw now sid t et x ++
        sendAll cfg gw now sid t et rest) sid k et = 1
    rw [countSends_append, countSends_sendOne_eq]
    rcases List.mem_cons.mp hc with hcx | hcr
    · subst hcx
      rw [if_pos hck]
      rw [countSends_sendAll_zero cfg gw now sid t et k rest
        (fun y hy hyk => hx.1 (hck ▸ hyk ▸ List.mem_map_of_mem Customer.id hy))]
    · have hxk : x.id ≠ k := by
        intro hxk
        exact hx.1 (hxk ▸ hck ▸ List.mem_map_of_mem Customer.id hcr)
      rw [if_neg hxk, ih hx.2 c hcr hck]

/-- Exactly one send attempt for the combination inside the tenant's
occasion run, given the query result and the active template. -/
theorem countSends_processOccasion_one (db : Db) (cfg : GatewayConfig)
    (gw : Gateway) (now : GoDate) (sid : Nat) (et : EventType)
    (cs : List Customer) (t : ReminderTemplate) (c : Customer) (k : Nat)
    (hq : getUpcomingCustomers db sid et now = .ok cs)
    (ht : getActiveTemplate db.templates sid et = some t)
    (hnd : (cs.map Customer.id).Nodup) (hc : c ∈ cs) (hck : c.id = k) :
    countSends (processOccasion db cfg gw now sid et) sid k et = 1 := by
  unfold processOccasion
  rw [hq]
  show countSends (sendReminders cfg gw now db.templates sid cs et)
    sid k et = 1
  unfold sendReminders
  rw [ht]
  exact countSends_sendAll_one cfg gw now sid t et k cs hnd c hc hck

/-- The tenant's other occasion run contributes no send attempt for this
occasion type. -/
theorem countSends_processOccasion_other (db : Db) (cfg : GatewayConfig)
    (gw : Gateway) (now : GoDate) (sid : Nat) (e' : EventType) (k : Nat)
    (et : EventType) (hne : et ≠ e') :
    countSends (processOccasion db cfg gw now sid e') sid k et = 0 :=
  countSends_wrong_type _ e'
    (evType_mem_processOccasion db cfg gw now sid e') sid k et hne

/-- Exactly one send attempt for the combination inside the tenant's whole
run. -/
theorem countSends_ProcessSalon_one (db : Db) (cfg : GatewayConfig)
    (gw : Gateway) (now : GoDate) (sid : Nat) (et : EventType)
    (cs : List Customer) (t : ReminderTemplate) (c : Customer) (k : Nat)
    (hq : getUpcomingCustomers db sid et now = .ok cs)
    (ht : getActiveTemplate db.templates sid et = some t)
    (hnd : (cs.map Customer.id).Nodup) (hc : c ∈ cs) (hck : c.id = k) :
    countSends (ProcessSalonReminders db cfg gw now sid) sid k et = 1 := by
  unfold ProcessSalonReminders
  rw [countSends_append]
  cases et with
  | birthday =>
    rw [countSends_processOccasion_one db cfg gw now sid .birthday cs t c k
        hq ht hnd hc hck,
      countSends_processOccasion_other db cfg gw now sid .anniversary k
        .birthday (by simp)]
  | anniversary =>
    rw [countSends_processOccasion_one db cfg gw now sid .anniversary cs t c k
        hq ht hnd hc hck,
      countSends_processOccasion_other db cfg gw now sid .birthday k
        .anniversary (by simp)]

/-- Other tenants' runs contribute no send attempt for this tenant. -/
theorem countSends_loop_zero (db : Db) (cfg : GatewayConfig) (gw : Gateway)
    (now : GoDate) (sid k : Nat) (et : EventType) :
    ∀ sl : List Salon, (∀ s' ∈ sl, s'.id ≠ sid) →
      countSends (loopSalons db cfg gw now sl) sid k et = 0 := by
  intro sl
  induction sl with
  | nil => intro _; rfl
  | cons x rest ih =>
    intro h
    show countSends (ProcessSalonReminders db cfg gw now x.id ++
        loopSalons db cfg gw now rest) sid k et = 0
    rw [countSends_append,
      countSends_wrong_salon _ x.id
        (evSalon_mem_ProcessSalonReminders db cfg gw now x.id) sid k et
        (fun hh => h x (List.mem_cons_self _ _) hh.symm),
      ih fun y hy => h y (List.mem_cons_of_mem x hy)]

/-- Over a duplicate-free salon list containing the tenant, the salon loop
contributes exactly the tenant's own count. -/
theorem countSends_loop_one (db : Db) (cfg : GatewayConfig) (gw : Gateway)
    (now : GoDate) (sid k : Nat) (et : EventType)
    (h1 : countSends (ProcessSalonReminders db cfg gw now sid) sid k et = 1) :
    ∀ sl : List Salon, (sl.map Salon.id).Nodup →
      ∀ sal ∈ sl, sal.id = sid →
      countSends (loopSalons db cfg gw now sl) sid k et = 1 := by
  intro sl
  induction sl with
  | nil => intro _ sal hsal; cases hsal
  | cons x rest ih =>
    intro hnd sal hsal hid
    have hx : x.id ∉ rest.map Salon.id ∧ (rest.map Salon.id).Nodup := by
      simpa [List.nodup_cons] using hnd
    show countSends (ProcessSalonReminders db cfg gw now x.id ++
        loopSalons db cfg gw now rest) sid k et = 1
    rw [countSends_append]
    by_cases hxs : x.id = sid
    · rw [hxs, h1,
        countSends_loop_zero db cfg gw now sid k et rest
          (fun y hy hyk => hx.1 (hxs ▸ hyk ▸ List.mem_map_of_mem Salon.id hy))]
    · rw [countSends_wrong_salon _ x.id
          (evSalon_mem_ProcessSalonReminders db cfg gw now x.id) sid k et
          (fun hh => hxs hh.symm)]
      rcases List.mem_cons.mp hsal with hsx | hsr
      · exact absurd (hsx ▸ hid) hxs
      · rw [ih hx.2 sal hsr hid]

/-- C2: in one cycle, every dispatch attempt is paired with exactly one
ledger append (for every combination the two counts coincide), and a
(tenant, customer, occasion type) combination that is processed — active
tenant row, occasion query returning the customer, active template — gets
exactly one gateway send attempt and exactly one ledger entry: never zero
and never more than one. Duplicate-freedom of the row ids reflects their
primary-key uniqueness. -/
theorem c2_exactly_one_send_and_ledger (db : Db) (cfg : GatewayConfig)
    (gw : Gateway) (now : GoDate) (salonID cid : Nat) (et : EventType)
    (sal : Salon) (cs : List Customer) (t : ReminderTemplate) (c : Customer)
    (hnoq : db.salonQueryError = none)
    (hmem : sal ∈ db.salons) (hact : sal.isActive = true)
    (hid : sal.id = salonID)
    (hnods : ((db.salons.filter fun s => s.isActive).map Salon.id).Nodup)
    (hq : getUpcomingCustomers db salonID et now = .ok cs)
    (ht : getActiveTemplate db.templates salonID et = some t)
    (hcmem : c ∈ cs) (hcid : c.id = cid)
    (hnodc : (cs.map Customer.id).Nodup) :
    (∀ s k e, countSends (SendDailyReminders db cfg gw now) s k e =
      countLedgers (SendDailyReminders db cfg gw now) s k e) ∧
    countSends (SendDailyReminders db cfg gw now) salonID cid et = 1 ∧
    countLedgers (SendDailyReminders db cfg gw now) salonID cid et = 1 := by
  have hsend : countSends (SendDailyReminders db cfg gw now)
      salonID cid et = 1 := by
    unfold SendDailyReminders
    rw [hnoq]
    show countSends
      (loopSalons db cfg gw now (db.salons.filter fun s => s.isActive))
      salonID cid et = 1
    exact countSends_loop_one db cfg gw now salonID cid et
      (countSends_ProcessSalon_one db cfg gw now salonID et cs t c cid
        hq ht hnodc hcmem hcid)
      _ hnods sal (List.mem_filter.mpr ⟨hmem, hact⟩) hid
  exact ⟨fun s k e => counts_pair_SendDailyReminders db cfg gw now s k e,
    hsend,
    by rw [← counts_pair_SendDailyReminders]; exact hsend⟩

/-- Witness for C2: on 2026-01-01 Alice's birthday (Jan 2) is in the
window; the cycle over `exDb` makes exactly one send attempt and one
ledger append for (tenant 1, customer 2, birthday). -/
theorem c2_exactly_one_send_and_ledger_witness :
    countSends (SendDailyReminders exDb cfgEx gwOk ⟨2026, 1, 1⟩) 1 2
      .birthday = 1 ∧
    countLedgers (SendDailyReminders exDb cfgEx gwOk ⟨2026, 1, 1⟩) 1 2
      .birthday = 1 :=
  ⟨(c2_exactly_one_send_and_ledger exDb cfgEx gwOk ⟨2026, 1, 1⟩ 1 2 .birthday
      salon1 [alice] bdayTemplate alice rfl (by decide) rfl rfl (by decide)
      rfl rfl (by decide) rfl (by decide)).2.1,
   (c2_exactly_one_send_and_ledger exDb cfgEx gwOk ⟨2026, 1, 1⟩ 1 2 .birthday
      salon1 [alice] bdayTemplate alice rfl (by decide) rfl rfl (by decide)
      rfl rfl (by decide) rfl (by decide)).2.2⟩

end SalonPro
